import Mathlib

set_option autoImplicit false

/-!
Shallow embedding of the moon actor-runtime core, restricted to the parts the
verified properties touch:

* the Lua-facing byte buffer (`lua_buffer.cpp`, over the buffer data model of
  the spec, since `common/buffer.hpp` is not part of the extracted sources);
* the framed-TCP connection (`base_connection.hpp`): `send`, `close`,
  `timeout`, `error`, `handle_message`;
* the network reactor (`socket.cpp`): `read`, `response`, `accept` completion,
  `uuid` / `try_lock_fd`, and the timeout sweep;
* the error branch of `lua_service::dispatch` (`lua_service.cpp`).

Bytes are `Nat` (values below 256 in practice; nothing here depends on the
bound), machine integers are `Nat`/`Int` with explicit reductions modulo
`2 ^ 32` where the C++ code relies on `uint32_t` wrap-around.
-/

/-- Modelled from the spec: `socket_data_type` subtype codes live in
`config.hpp`, which is not among the extracted sources.  Only distinctness of
the codes matters to the properties below. -/
def socket_data_type_close : Nat := 4

/-- Modelled from the spec: the `socket_error` subtype code from `config.hpp`
(absent from the extracted sources); distinct from `socket_data_type_close`. -/
def socket_data_type_error : Nat := 5

/-- Modelled from the spec: message type code `PTYPE_TEXT` from `config.hpp`
(absent from the extracted sources). -/
def PTYPE_TEXT : Nat := 2

/-- Modelled from the spec: message type code `PTYPE_ERROR` from `config.hpp`
(absent from the extracted sources); distinct from `PTYPE_TEXT`. -/
def PTYPE_ERROR : Nat := 4

/-- Modelled from the spec: `network_logic_error::timeout` from `config.hpp`
(absent from the extracted sources). -/
def network_logic_error_timeout : Nat := 3

/-- Modelled from the spec: `network_logic_error::send_message_queue_size_max`
from `config.hpp` (absent from the extracted sources); nonzero and distinct
from the other codes. -/
def send_message_queue_size_max : Nat := 4

/-- Modelled from the spec: the asio error-code value of `asio::error::eof`.
A clean end-of-file is distinguished from genuine transport errors by
`base_connection::error`; only its being a fixed nonzero code matters. -/
def asio_error_eof : Nat := 2

/-- Modelled from the spec: `logic_errmsg` of `config.hpp` (absent from the
extracted sources) maps a logic error code to its human-readable text; the
spec lists the error kinds.  Only its functional dependence on the code
matters to the properties below. -/
def logic_errmsg (code : Nat) : String :=
  if code = network_logic_error_timeout then "timeout"
  else if code = send_message_queue_size_max then "send queue overflow"
  else "unknown"

/-! ## Byte buffer (`common/buffer.hpp` data model, `lua_buffer.cpp` wrappers)

The spec describes the buffer as a contiguous byte region with a read cursor
and a write cursor; `write_back` appends at the write cursor, `seek` advances
the read cursor, `size` is the distance between the cursors, and `data` points
at the read cursor. -/

/-- Modelled from the spec: the byte buffer of `common/buffer.hpp` (absent
from the extracted sources).  `data` is the whole underlying byte region up to
the write cursor and `rpos` is the read-cursor index into it. -/
structure buffer where
  data : List Nat
  rpos : Nat
deriving DecidableEq

/-- Modelled from the spec: `buffer::size()`, the readable byte count between
the read cursor and the write cursor (`size_t` arithmetic truncates at 0). -/
def buffer.size (b : buffer) : Nat := b.data.length - b.rpos

/-- Modelled from the spec: the readable region, i.e. the bytes from the read
cursor (`buffer::data()`) to the write cursor. -/
def buffer.readable (b : buffer) : List Nat := b.data.drop b.rpos

/-- Modelled from the spec: `buffer::write_back`, appending bytes at the write
cursor (always succeeds, growing as needed). -/
def buffer.write_back (b : buffer) (s : List Nat) : buffer :=
  ⟨b.data ++ s, b.rpos⟩

/-- Modelled from the spec: `buffer::seek(n)` with origin `Current`, advancing
the read cursor by `n`. -/
def buffer.seek (b : buffer) (n : Nat) : buffer :=
  ⟨b.data, b.rpos + n⟩

/-- Result of the Lua `read` binding: either the bytes pushed to the Lua
stack, or the `(false, message)` error pair. -/
inductive lua_read_result where
  | ok (bytes : List Nat)
  | err (emsg : String)
deriving DecidableEq

/-- The `read` binding of `lua_buffer.cpp`: a count larger than `buf->size()`
yields `(false, "out off index")` and leaves the buffer untouched; otherwise
the first `count` readable bytes are returned and the read cursor advances by
`count` (`buf->seek(count)`). -/
def lua_read (b : buffer) (count : Nat) : lua_read_result × buffer :=
  if count > b.size then (.err "out off index", b)
  else (.ok (b.readable.take count), b.seek count)

/-- The `write_back` binding of `lua_buffer.cpp`: appends the byte string. -/
def lua_write_back (b : buffer) (s : List Nat) : buffer :=
  b.write_back s

/-- C10: `lua_read` with a count above `size` fails with exactly the message
"out off index" and returns the buffer unchanged; with a count at most `size`
it returns the first `count` readable bytes and advances the read cursor by
`count`. -/
theorem lua_read_contract (b : buffer) (count : Nat) :
    (count > b.size → lua_read b count = (.err "out off index", b)) ∧
    (count ≤ b.size →
      lua_read b count = (.ok (b.readable.take count), ⟨b.data, b.rpos + count⟩)) := by
  constructor
  · intro h
    simp [lua_read, h]
  · intro h
    simp [lua_read, Nat.not_lt.mpr h, buffer.seek]

theorem lua_read_contract_witness :
    ((4 : Nat) > (buffer.mk [1, 2, 3] 0).size →
      lua_read ⟨[1, 2, 3], 0⟩ 4 = (.err "out off index", ⟨[1, 2, 3], 0⟩)) ∧
    ((4 : Nat) > (buffer.mk [1, 2, 3] 0).size) ∧
    ((2 : Nat) ≤ (buffer.mk [1, 2, 3] 0).size →
      lua_read ⟨[1, 2, 3], 0⟩ 2 = (.ok [1, 2], ⟨[1, 2, 3], 2⟩)) ∧
    ((2 : Nat) ≤ (buffer.mk [1, 2, 3] 0).size) := by
  refine ⟨(lua_read_contract ⟨[1, 2, 3], 0⟩ 4).1, by decide, ?_, by decide⟩
  intro h
  have := (lua_read_contract ⟨[1, 2, 3], 0⟩ 2).2 h
  simpa [buffer.readable] using this

/-- C8 counterexample: on a buffer whose readable region is the single byte 1,
appending the byte string [2] with `write_back` and then reading 1 byte
returns [1], the head of the pre-existing readable region, not the appended
string [2]. -/
theorem write_back_read_nonempty_buffer :
    (lua_read (lua_write_back ⟨[1], 0⟩ [2]) 1).1 = .ok [1] ∧
    lua_read_result.ok [1] ≠ .ok [2] := by
  decide

/-- C8 (amended): when the buffer's readable region is empty (read cursor at
the write cursor), `write_back(b)` followed by `read(len b)` returns exactly
the appended bytes and advances the read cursor past them. -/
theorem write_back_read_roundtrip (b : buffer) (s : List Nat)
    (h : b.rpos = b.data.length) :
    lua_read (lua_write_back b s) s.length =
      (.ok s, ⟨b.data ++ s, b.rpos + s.length⟩) := by
  simp [lua_read, lua_write_back, buffer.write_back, buffer.size, buffer.readable,
    buffer.seek, h, List.drop_left]

theorem write_back_read_roundtrip_witness :
    (buffer.mk [9] 1).rpos = (buffer.mk [9] 1).data.length ∧
    lua_read (lua_write_back ⟨[9], 1⟩ [5, 6]) 2 = (.ok [5, 6], ⟨[9, 5, 6], 3⟩) := by
  refine ⟨by decide, ?_⟩
  simpa using write_back_read_roundtrip ⟨[9], 1⟩ [5, 6] (by decide)

/-! ## Messages and the framed-TCP connection (`base_connection.hpp`)

A `msg` mirrors `moon::message` in the fields the connection touches;
`message::create()` yields all fields at their defaults.  The connection state
mirrors the member variables of `base_connection`; `s_attached` stands for the
back-reference `s_` being non-null and `sock_open` for `socket_.is_open()`. -/

/-- The message record as the connection code uses it (`moon::message`). -/
structure msg where
  sender : Nat := 0
  receiver : Nat := 0
  sessionid : Int := 0
  mtype : Nat := 0
  subtype : Nat := 0
  header : String := ""
  content : String := ""
deriving DecidableEq

/-- An asio error code as observed by a completion handler: `value = 0` is
"no error", and `emsg` is `e.message()`. -/
structure asio_error_code where
  value : Nat := 0
  emsg : String := ""
deriving DecidableEq

/-- State of a `base_connection` (member variables of the C++ class). -/
structure base_connection where
  sending_ : Bool := false
  logic_error_ : Nat := 0
  fd_ : Nat := 0
  recvtime_ : Int := 0
  timeout_ : Nat := 0
  serviceid_ : Nat
  type_ : Nat
  s_attached : Bool := true
  sock_open : Bool := true
  addr_ : String := ""
  queue_ : List (List Nat) := []
deriving DecidableEq

/-- Observable side effects of `base_connection::send` besides the returned
bool and the state change: the `CONSOLE_DEBUG` long-queue warning and the
`post_send()` write posting. -/
inductive net_action where
  | warn_log
  | post_send
deriving DecidableEq

/-- `base_connection::close(exit)`: shuts down and closes the socket if it is
open; with `exit = true` it also drops the back-reference `s_`. -/
def base_connection.close (c : base_connection) (exit : Bool := false) :
    base_connection :=
  { c with sock_open := false, s_attached := c.s_attached && !exit }

/-- `base_connection::send(data)`, with the queue-size thresholds
`WARN_NET_SEND_QUEUE_SIZE` and `MAX_NET_SEND_QUEUE_SIZE` (values live in
`config.hpp`, outside the extracted sources) as parameters.  Returns the C++
return value, the successor state, and the emitted side effects in order. -/
def base_connection.send (WARN MAX : Nat) (c : base_connection)
    (data : Option (List Nat)) : Bool × base_connection × List net_action :=
  match data with
  | none => (false, c, [])
  | some d =>
    if d.length = 0 then (false, c, [])
    else if c.sock_open = false then (false, c, [])
    else
      let c1 : base_connection := { c with queue_ := c.queue_ ++ [d] }
      if WARN ≤ c1.queue_.length then
        if MAX ≤ c1.queue_.length then
          (false, { c1.close with logic_error_ := send_message_queue_size_max },
            [.warn_log])
        else if c1.sending_ = false then (true, c1, [.warn_log, .post_send])
        else (true, c1, [.warn_log])
      else if c1.sending_ = false then (true, c1, [.post_send])
      else (true, c1, [])

/-- `base_connection::handle_message`: forwards a message to the owning
service through `s_` when the back-reference is still set, stamping the
sender with the connection's fd and defaulting the type to the connection
protocol type; emits nothing once `s_` is null. -/
def base_connection.handle_message (c : base_connection) (m : msg) :
    List (Nat × msg) :=
  if c.s_attached then
    [(c.serviceid_,
      { m with sender := c.fd_,
               mtype := if m.mtype = 0 then c.type_ else m.mtype })]
  else []

/-- The JSON payload `moon::format("{\"addr\":...,\"logic_errcode\":...}")`
built for a core-detected logic error. -/
def format_logic_error (addr : String) (code : Nat) (emsg : String) : String :=
  "\x7b\"addr\":\"" ++ addr ++ "\",\"logic_errcode\":" ++ toString code ++
    ",\"errmsg\":\"" ++ emsg ++ "\"\x7d"

/-- The JSON payload `moon::format("{\"addr\":...,\"errcode\":...}")` built
for a transport error. -/
def format_transport_error (addr : String) (code : Nat) (emsg : String) :
    String :=
  "\x7b\"addr\":\"" ++ addr ++ "\",\"errcode\":" ++ toString code ++
    ",\"errmsg\":\"" ++ emsg ++ "\"\x7d"

/-- `base_connection::error(e, lerrcode, lerrmsg)`: builds the error message
(subtype `socket_error` when a logic error code is set, or when the asio
error is set and is not end-of-file; otherwise an empty payload with the
default subtype), then the close message (subtype `socket_close`, payload the
peer address), hands both to `handle_message`, and finally nulls `s_`. -/
def base_connection.error (c : base_connection) (e : asio_error_code)
    (lerrcode : Nat) (lerrmsg : Option String := none) :
    base_connection × List (Nat × msg) :=
  let m1 : msg :=
    if lerrcode ≠ 0 then
      { content := format_logic_error c.addr_ lerrcode
          (lerrmsg.getD (logic_errmsg lerrcode)),
        subtype := socket_data_type_error, sender := c.fd_ }
    else if e.value ≠ 0 ∧ e.value ≠ asio_error_eof then
      { content := format_transport_error c.addr_ e.value e.emsg,
        subtype := socket_data_type_error, sender := c.fd_ }
    else
      { content := "", sender := c.fd_ }
  let out1 := c.handle_message m1
  let m2 : msg :=
    { content := c.addr_, sender := c.fd_, subtype := socket_data_type_close }
  let out2 := c.handle_message m2
  ({ c with s_attached := false }, out1 ++ out2)

/-- C9: `send` with a null buffer, an empty buffer, or a closed socket
returns false and is a complete no-op: the state (queue, socket, logic error
code) is unchanged and no side effect (no warning, no posted write, hence
also no close and no emitted message) occurs. -/
theorem send_invalid_noop (WARN MAX : Nat) (c : base_connection)
    (data : Option (List Nat))
    (h : data = none ∨ data = some [] ∨ c.sock_open = false) :
    base_connection.send WARN MAX c data = (false, c, []) := by
  rcases h with h | h | h
  · subst h; rfl
  · subst h; rfl
  · cases data with
    | none => rfl
    | some d => simp [base_connection.send, h]

theorem send_invalid_noop_witness :
    (some ([] : List Nat) = none ∨ some ([] : List Nat) = some [] ∨
      ({ serviceid_ := 1, type_ := 2 } : base_connection).sock_open = false) ∧
    base_connection.send 2 4 { serviceid_ := 1, type_ := 2 } (some []) =
      (false, { serviceid_ := 1, type_ := 2 }, []) :=
  ⟨Or.inr (Or.inl rfl),
    send_invalid_noop 2 4 { serviceid_ := 1, type_ := 2 } (some [])
      (Or.inr (Or.inl rfl))⟩

/-- C2: on an open connection and a non-empty buffer (with the configured
thresholds satisfying `WARN ≤ MAX`), `send` always enqueues the buffer; it
returns true exactly while the queue stays below `MAX_NET_SEND_QUEUE_SIZE`,
it logs the long-queue warning exactly from `WARN_NET_SEND_QUEUE_SIZE` on,
and at `MAX_NET_SEND_QUEUE_SIZE` it closes the connection with the
`send_queue_overflow` logic error and returns false. -/
theorem send_backpressure_contract (WARN MAX : Nat) (c : base_connection)
    (d : List Nat) (hwm : WARN ≤ MAX) (hd : d ≠ []) (hopen : c.sock_open = true) :
    ((base_connection.send WARN MAX c (some d)).2.1.queue_ = c.queue_ ++ [d]) ∧
    (c.queue_.length + 1 < MAX →
      (base_connection.send WARN MAX c (some d)).1 = true ∧
      (base_connection.send WARN MAX c (some d)).2.1.sock_open = true ∧
      (base_connection.send WARN MAX c (some d)).2.1.logic_error_ =
        c.logic_error_) ∧
    (MAX ≤ c.queue_.length + 1 →
      (base_connection.send WARN MAX c (some d)).1 = false ∧
      (base_connection.send WARN MAX c (some d)).2.1.sock_open = false ∧
      (base_connection.send WARN MAX c (some d)).2.1.logic_error_ =
        send_message_queue_size_max) ∧
    (net_action.warn_log ∈ (base_connection.send WARN MAX c (some d)).2.2 ↔
      WARN ≤ c.queue_.length + 1) := by
  have hd0 : ¬ d.length = 0 := fun h0 => hd (List.length_eq_zero.mp h0)
  by_cases hs : c.sending_ = false <;> by_cases hw : WARN ≤ c.queue_.length + 1 <;>
    by_cases hm : MAX ≤ c.queue_.length + 1 <;>
    simp [base_connection.send, base_connection.close, hd0, hopen, hs, hw, hm] <;>
    omega

theorem send_backpressure_contract_witness :
    ((1 : Nat) ≤ 1 ∧ [3] ≠ ([] : List Nat) ∧
      ({ serviceid_ := 1, type_ := 2 } : base_connection).sock_open = true) ∧
    (1 ≤ (0 : Nat) + 1 →
      (base_connection.send 1 1 { serviceid_ := 1, type_ := 2 } (some [3])).1 = false ∧
      (base_connection.send 1 1 { serviceid_ := 1, type_ := 2 } (some [3])).2.1.sock_open = false ∧
      (base_connection.send 1 1 { serviceid_ := 1, type_ := 2 } (some [3])).2.1.logic_error_ =
        send_message_queue_size_max) ∧
    (base_connection.send 1 1 { serviceid_ := 1, type_ := 2 } (some [3])).2.1.queue_ =
      [] ++ [[3]] :=
  ⟨⟨le_refl 1, by decide, rfl⟩,
    (send_backpressure_contract 1 1 { serviceid_ := 1, type_ := 2 } [3]
      (le_refl 1) (by decide) rfl).2.2.1,
    (send_backpressure_contract 1 1 { serviceid_ := 1, type_ := 2 } [3]
      (le_refl 1) (by decide) rfl).1⟩

/-- C1: whenever the error path of a still-attached connection runs for an
actual error (a nonzero logic error code, or a transport error code that is
set and is not plain end-of-file), exactly two messages are handed to the
owning service in order: first a `socket_error` message whose payload is the
JSON object with `logic_errcode` (logic errors) or `errcode` (transport
errors) and the peer address, then a `socket_close` message carrying the peer
address; both bear the connection's fd as sender, the back-reference is
dropped afterwards, and the connection emits no further messages. -/
theorem error_emits_error_then_close (c : base_connection) (e : asio_error_code)
    (lerrcode : Nat) (lerrmsg : Option String)
    (hatt : c.s_attached = true)
    (herr : lerrcode ≠ 0 ∨ (e.value ≠ 0 ∧ e.value ≠ asio_error_eof)) :
    (base_connection.error c e lerrcode lerrmsg).2 =
      [(c.serviceid_,
        { sender := c.fd_, subtype := socket_data_type_error, mtype := c.type_,
          content :=
            if lerrcode ≠ 0 then
              format_logic_error c.addr_ lerrcode
                (lerrmsg.getD (logic_errmsg lerrcode))
            else format_transport_error c.addr_ e.value e.emsg }),
       (c.serviceid_,
        { sender := c.fd_, subtype := socket_data_type_close, mtype := c.type_,
          content := c.addr_ })] ∧
    socket_data_type_error ≠ socket_data_type_close ∧
    (base_connection.error c e lerrcode lerrmsg).1.s_attached = false ∧
    ∀ m : msg, (base_connection.error c e lerrcode lerrmsg).1.handle_message m = [] := by
  refine ⟨?_, by decide, rfl, ?_⟩
  · by_cases hl : lerrcode = 0
    · have htr : e.value ≠ 0 ∧ e.value ≠ asio_error_eof :=
        herr.resolve_left (by simp [hl])
      subst hl
      simp [base_connection.error, base_connection.handle_message, hatt,
        htr.1, htr.2]
    · simp [base_connection.error, base_connection.handle_message, hatt, hl]
  · intro m
    simp [base_connection.error, base_connection.handle_message]

theorem error_emits_error_then_close_witness :
    ({ serviceid_ := 7, type_ := 2, fd_ := 9, addr_ := "a" } : base_connection).s_attached = true ∧
    (network_logic_error_timeout ≠ 0 ∨
      ((⟨0, ""⟩ : asio_error_code)).value ≠ 0 ∧
        ((⟨0, ""⟩ : asio_error_code)).value ≠ asio_error_eof) ∧
    (base_connection.error { serviceid_ := 7, type_ := 2, fd_ := 9, addr_ := "a" }
        ⟨0, ""⟩ network_logic_error_timeout none).2 =
      [(7, { sender := 9, subtype := socket_data_type_error, mtype := 2,
             content :=
               if network_logic_error_timeout ≠ 0 then
                 format_logic_error "a" network_logic_error_timeout
                   ((none : Option String).getD (logic_errmsg network_logic_error_timeout))
               else format_transport_error "a" 0 "" }),
       (7, { sender := 9, subtype := socket_data_type_close, mtype := 2,
             content := "a" })] ∧
    (base_connection.error { serviceid_ := 7, type_ := 2, fd_ := 9, addr_ := "a" }
        ⟨0, ""⟩ network_logic_error_timeout none).1.s_attached = false :=
  ⟨rfl, Or.inl (by decide),
    (error_emits_error_then_close { serviceid_ := 7, type_ := 2, fd_ := 9, addr_ := "a" }
      ⟨0, ""⟩ network_logic_error_timeout none rfl (Or.inl (by decide))).1,
    (error_emits_error_then_close { serviceid_ := 7, type_ := 2, fd_ := 9, addr_ := "a" }
      ⟨0, ""⟩ network_logic_error_timeout none rfl (Or.inl (by decide))).2.2.1⟩

/-- `base_connection::timeout(now)`: closes the connection with the `timeout`
logic error when a timeout window is configured (`timeout_ != 0`), a receive
has been stamped (`recvtime_ != 0`), and `now - recvtime_ > timeout_`. -/
def base_connection.timeout (c : base_connection) (now : Int) : base_connection :=
  if c.timeout_ ≠ 0 ∧ c.recvtime_ ≠ 0 ∧ now - c.recvtime_ > (c.timeout_ : Int) then
    { c.close with logic_error_ := network_logic_error_timeout }
  else c

/-- The body of the reactor's 10-second sweep (`socket::timeout`): every
connection of the table is visited and put through
`base_connection::timeout(now)`. -/
def socket_timeout_sweep (conns : List (Nat × base_connection)) (now : Int) :
    List (Nat × base_connection) :=
  conns.map (fun p => (p.1, p.2.timeout now))

/-- C4 counterexample: a connection whose configured window is 0 satisfies
`now - last_recv > timeout` (95 > 0) yet the sweep leaves it open, so the
sweep does not close every connection with `now - last_recv > timeout`. -/
theorem timeout_zero_window_not_closed :
    ((100 : Int) - ({ serviceid_ := 1, type_ := 2, recvtime_ := 5, timeout_ := 0 } :
        base_connection).recvtime_ >
      (({ serviceid_ := 1, type_ := 2, recvtime_ := 5, timeout_ := 0 } :
        base_connection).timeout_ : Int)) ∧
    socket_timeout_sweep
        [(3, { serviceid_ := 1, type_ := 2, recvtime_ := 5, timeout_ := 0 })] 100 =
      [(3, { serviceid_ := 1, type_ := 2, recvtime_ := 5, timeout_ := 0 })] ∧
    ({ serviceid_ := 1, type_ := 2, recvtime_ := 5, timeout_ := 0 } :
        base_connection).sock_open = true := by
  refine ⟨by norm_num, ?_, rfl⟩
  simp [socket_timeout_sweep, base_connection.timeout]

/-- C4 (amended): the sweep visits every connection of the table, and closes
(with the `timeout` logic error) exactly those whose window and last-receive
stamp are both nonzero and for which `now - last_recv > timeout`; every other
connection is left completely unchanged. -/
theorem timeout_sweep_closes_expired (conns : List (Nat × base_connection))
    (now : Int) :
    ((socket_timeout_sweep conns now).length = conns.length) ∧
    (∀ p, p ∈ conns → (p.1, p.2.timeout now) ∈ socket_timeout_sweep conns now) ∧
    (∀ c : base_connection,
      (c.timeout_ ≠ 0 ∧ c.recvtime_ ≠ 0 ∧ now - c.recvtime_ > (c.timeout_ : Int) →
        c.timeout now =
          { c with sock_open := false,
                   logic_error_ := network_logic_error_timeout }) ∧
      (¬ (c.timeout_ ≠ 0 ∧ c.recvtime_ ≠ 0 ∧ now - c.recvtime_ > (c.timeout_ : Int)) →
        c.timeout now = c)) := by
  refine ⟨by simp [socket_timeout_sweep], ?_, ?_⟩
  · intro p hp
    exact List.mem_map.mpr ⟨p, hp, rfl⟩
  · intro c
    constructor
    · intro h
      simp only [base_connection.timeout, if_pos h, base_connection.close]
      cases hs : c.s_attached <;> simp [hs]
    · intro h
      simp only [base_connection.timeout, if_neg h]

theorem timeout_sweep_closes_expired_witness :
    (({ serviceid_ := 1, type_ := 2, recvtime_ := 5, timeout_ := 10 } :
        base_connection).timeout_ ≠ 0 ∧
      ({ serviceid_ := 1, type_ := 2, recvtime_ := 5, timeout_ := 10 } :
        base_connection).recvtime_ ≠ 0 ∧
      (100 : Int) - 5 > ((10 : Nat) : Int)) ∧
    ({ serviceid_ := 1, type_ := 2, recvtime_ := 5, timeout_ := 10 } :
        base_connection).timeout 100 =
      { serviceid_ := 1, type_ := 2, recvtime_ := 5, timeout_ := 10,
        sock_open := false, logic_error_ := network_logic_error_timeout } :=
  ⟨⟨by decide, by decide, by norm_num⟩,
    ((timeout_sweep_closes_expired [] 100).2.2
      { serviceid_ := 1, type_ := 2, recvtime_ := 5, timeout_ := 10 }).1
      ⟨by decide, by decide, by norm_num⟩⟩

/-! ## Network reactor (`socket.cpp`) -/

/-- The read request record of `base_connection.hpp` (`delim` is the
`read_delim` enumeration value, encoded as a code). -/
structure read_request where
  delim : Nat
  size : Nat
  sessionid : Int
deriving DecidableEq

/-- `socket::response`: with session 0 nothing at all is sent; otherwise one
message is delivered to `receiver`, carrying the given sender, payload,
header, session and type (the message's own receiver field is zeroed). -/
def socket_response (sender receiver : Nat) (data header : String)
    (sessionid : Int) (ptype : Nat) : List (Nat × msg) :=
  if sessionid = 0 then []
  else
    [(receiver,
      { sender := sender, receiver := 0, sessionid := sessionid,
        mtype := ptype, header := header, content := data })]

/-- Association lookup in the reactor's connection table
(`connections_.find(fd)`). -/
def lookup_conn (conns : List (Nat × base_connection)) (fd : Nat) :
    Option base_connection :=
  (conns.find? (fun p => p.1 == fd)).map Prod.snd

/-- Outcome of `socket::read`: either the connection accepted the request
synchronously, or a thunk was posted to the event loop (`ioc_.post`), whose
emissions happen on a later loop iteration. -/
inductive read_outcome where
  | handled
  | deferred (posted : List (Nat × msg))
deriving DecidableEq

/-- `socket::read(fd, owner, n, delim, sessionid)`; the virtual
`base_connection::read` override of the concrete connection class is the
parameter `vread`.  If the fd is unknown or the connection rejects the
request, the error response is posted to the loop, never run synchronously. -/
def socket_read (vread : base_connection → read_request → Bool)
    (conns : List (Nat × base_connection)) (fd owner : Nat) (n : Nat)
    (delim : Nat) (sessionid : Int) : read_outcome :=
  match lookup_conn conns fd with
  | some c =>
    if vread c ⟨delim, n, sessionid⟩ then .handled
    else .deferred
      (socket_response 0 owner "read an invalid socket" "closed" sessionid PTYPE_ERROR)
  | none => .deferred
      (socket_response 0 owner "read an invalid socket" "closed" sessionid PTYPE_ERROR)

/-- C3 counterexample: a read with session 0 on an fd absent from the table
is deferred, but the posted thunk delivers no message at all
(`socket::response` drops session 0), so no `PTYPE_ERROR` response carrying
the request's session reaches the owner. -/
theorem read_invalid_fd_session_zero_silent :
    socket_read (fun _ _ => false) [] 1 2 0 0 0 = .deferred [] := by
  rfl

/-- C3 (amended): a read on an fd that is unknown, or whose connection
rejects the request, is never answered synchronously: the outcome is a
posted thunk, which on a later loop iteration delivers exactly one
`PTYPE_ERROR` response to the owner carrying the request's session — provided
that session is nonzero; with session 0 the posted thunk delivers nothing. -/
theorem read_invalid_fd_deferred_error
    (vread : base_connection → read_request → Bool)
    (conns : List (Nat × base_connection)) (fd owner n delim : Nat)
    (sessionid : Int)
    (hrej : lookup_conn conns fd = none ∨
      ∀ c, lookup_conn conns fd = some c → vread c ⟨delim, n, sessionid⟩ = false) :
    socket_read vread conns fd owner n delim sessionid ≠ .handled ∧
    socket_read vread conns fd owner n delim sessionid =
      .deferred (socket_response 0 owner "read an invalid socket" "closed"
        sessionid PTYPE_ERROR) ∧
    (sessionid ≠ 0 →
      socket_response 0 owner "read an invalid socket" "closed" sessionid PTYPE_ERROR =
        [(owner, { sender := 0, receiver := 0, sessionid := sessionid,
                   mtype := PTYPE_ERROR, header := "closed",
                   content := "read an invalid socket" })]) ∧
    (sessionid = 0 →
      socket_response 0 owner "read an invalid socket" "closed" sessionid PTYPE_ERROR = []) := by
  have hdef : socket_read vread conns fd owner n delim sessionid =
      .deferred (socket_response 0 owner "read an invalid socket" "closed"
        sessionid PTYPE_ERROR) := by
    rcases hrej with h | h
    · simp [socket_read, h]
    · cases hc : lookup_conn conns fd with
      | none => simp [socket_read, hc]
      | some c => simp [socket_read, hc, h c hc]
  refine ⟨by simp [hdef], hdef, fun hs => by simp [socket_response, hs],
    fun hs => by simp [socket_response, hs]⟩

theorem read_invalid_fd_deferred_error_witness :
    (lookup_conn [] 1 = none ∨
      ∀ c, lookup_conn [] 1 = some c →
        (fun (_ : base_connection) (_ : read_request) => false) c ⟨0, 0, 5⟩ = false) ∧
    socket_read (fun _ _ => false) [] 1 2 0 0 5 =
      .deferred (socket_response 0 2 "read an invalid socket" "closed" 5 PTYPE_ERROR) ∧
    ((5 : Int) ≠ 0 →
      socket_response 0 2 "read an invalid socket" "closed" 5 PTYPE_ERROR =
        [(2, { sender := 0, receiver := 0, sessionid := 5, mtype := PTYPE_ERROR,
               header := "closed", content := "read an invalid socket" })]) :=
  ⟨Or.inl rfl,
    (read_invalid_fd_deferred_error (fun _ _ => false) [] 1 2 0 0 5 (Or.inl rfl)).2.1,
    (read_invalid_fd_deferred_error (fun _ _ => false) [] 1 2 0 0 5 (Or.inl rfl)).2.2.1⟩

/-- The acceptor bookkeeping of `socket::acceptor_context`: protocol type,
the owner that created the listener, and the listener's fd. -/
structure acceptor_context where
  atype : Nat
  owner : Nat
  fd : Nat
deriving DecidableEq

/-- Modelled from the spec: `router::worker_id` (router code absent from the
extracted sources) decodes the owning worker index from the high 16 bits of
a 32-bit service or socket id. -/
def worker_id (sid : Nat) : Nat := sid >>> 16

/-- Observable steps of the `socket::accept` completion handler, in order:
registering the freshly accepted connection with a worker's reactor
(`w->socket().add_connection`), re-issuing the accept (the auto-accept
loop), delivering a response message, warning to the log, and closing the
listener. -/
inductive accept_action where
  | register_connection (workerid : Nat) (newfd : Nat)
  | reissue_accept (listenfd : Nat)
  | respond (dest : Nat) (m : msg)
  | warn_log
  | close_listener (listenfd : Nat)
deriving DecidableEq

/-- Modelled from the spec: the asio error-code value of
`asio::error::operation_aborted` (a cancelled accept is not warned about);
only its being a fixed code distinct from 0 matters. -/
def asio_error_operation_aborted : Nat := 125

/-- The completion handler of `socket::accept(fd, sessionid, owner)` for the
acceptor context `ctx`: on success the new connection gets `newfd` from the
owner's worker and is registered there; session 0 re-issues the accept,
otherwise the new fd is sent through `socket::response` from `ctx.fd` to
`ctx.owner` with the request's session and `PTYPE_TEXT`.  On failure a
nonzero session gets an error response; session 0 warns (unless the accept
was aborted) and closes the listener. -/
def socket_accept_handler (ctx : acceptor_context) (sessionid : Int)
    (owner : Nat) (newfd : Nat) (e : Option asio_error_code) :
    List accept_action :=
  match e with
  | none =>
    [.register_connection (worker_id owner) newfd] ++
      (if sessionid = 0 then [.reissue_accept ctx.fd]
       else (socket_response ctx.fd ctx.owner (toString newfd) "" sessionid
          PTYPE_TEXT).map (fun p => .respond p.1 p.2))
  | some err =>
    if sessionid ≠ 0 then
      (socket_response ctx.fd ctx.owner
        ("socket::accept error " ++ err.emsg ++ "(" ++ toString err.value ++ ")")
        "error" sessionid PTYPE_ERROR).map (fun p => .respond p.1 p.2)
    else
      (if err.value ≠ asio_error_operation_aborted then [.warn_log] else []) ++
        [.close_listener ctx.fd]

/-- C5 counterexample: a one-shot accept requested by service 9 on a listener
created by service 7 delivers the new fd to service 7 — the listener's owner
— not to the requesting service 9. -/
theorem accept_response_goes_to_listener_owner :
    socket_accept_handler ⟨2, 7, 11⟩ 5 9 3 none =
      [.register_connection (worker_id 9) 3,
       .respond 7 { sender := 11, receiver := 0, sessionid := 5,
                    mtype := PTYPE_TEXT, header := "", content := "3" }] ∧
    (7 : Nat) ≠ 9 := by
  constructor
  · rfl
  · decide

/-- C5 (amended): on a successful accept, the new connection is always
registered with the worker that owns `owner` (decoded from the high 16 bits
of `owner`), and: with session 0 the handler re-issues the accept on the
listener and sends no response, while with a nonzero session it is one-shot
(no re-issue) and exactly one response carrying that session, type
`PTYPE_TEXT` and the new fd as payload is delivered — to the acceptor's
owner, the service that created the listener. -/
theorem accept_session_contract (ctx : acceptor_context) (sessionid : Int)
    (owner newfd : Nat) :
    accept_action.register_connection (worker_id owner) newfd ∈
      socket_accept_handler ctx sessionid owner newfd none ∧
    (sessionid = 0 →
      accept_action.reissue_accept ctx.fd ∈
        socket_accept_handler ctx sessionid owner newfd none ∧
      ∀ dest m, accept_action.respond dest m ∉
        socket_accept_handler ctx sessionid owner newfd none) ∧
    (sessionid ≠ 0 →
      socket_accept_handler ctx sessionid owner newfd none =
        [.register_connection (worker_id owner) newfd,
         .respond ctx.owner
           { sender := ctx.fd, receiver := 0, sessionid := sessionid,
             mtype := PTYPE_TEXT, header := "", content := toString newfd }] ∧
      (∀ listenfd, accept_action.reissue_accept listenfd ∉
        socket_accept_handler ctx sessionid owner newfd none)) := by
  refine ⟨?_, ?_, ?_⟩
  · cases hs : decide (sessionid = 0) <;>
      simp_all [socket_accept_handler, socket_response]
  · intro hs
    simp [socket_accept_handler, hs]
  · intro hs
    constructor
    · simp [socket_accept_handler, socket_response, hs]
    · intro listenfd
      simp [socket_accept_handler, socket_response, hs]

theorem accept_session_contract_witness :
    ((5 : Int) ≠ 0) ∧
    socket_accept_handler ⟨2, 7, 11⟩ 5 9 3 none =
      [.register_connection (worker_id 9) 3,
       .respond 7 { sender := 11, receiver := 0, sessionid := 5,
                    mtype := PTYPE_TEXT, header := "", content := "3" }] ∧
    accept_action.register_connection (worker_id 9) 3 ∈
      socket_accept_handler ⟨2, 7, 11⟩ 5 9 3 none :=
  ⟨by decide,
    ((accept_session_contract ⟨2, 7, 11⟩ 5 9 3).2.2 (by decide)).1,
    (accept_session_contract ⟨2, 7, 11⟩ 5 9 3).1⟩

/-- A bitwise or with a left-shifted value is plain addition when the low
part fits below the shift amount. -/
theorem lor_shiftLeft_eq_add (n : Nat) :
    ∀ a b : Nat, b < 2 ^ n → b ||| a <<< n = a * 2 ^ n + b := by
  induction n with
  | zero =>
    intro a b hb
    interval_cases b
    simp [Nat.shiftLeft_eq]
  | succ n ih =>
    intro a b hb
    have hb2 : b / 2 < 2 ^ n := by
      rw [Nat.div_lt_iff_lt_mul (by norm_num)]
      calc b < 2 ^ (n + 1) := hb
        _ = 2 ^ n * 2 := by rw [Nat.pow_succ]
    have hsh : a <<< (n + 1) = Nat.bit false (a <<< n) := by
      simp only [Nat.bit_false]
      rw [Nat.shiftLeft_eq, Nat.shiftLeft_eq, Nat.pow_succ]
      ring
    have key : b ||| a <<< (n + 1) = 2 * ((b / 2) ||| (a <<< n)) + b % 2 := by
      rcases Nat.mod_two_eq_zero_or_one b with h | h
      · have hb' : b = Nat.bit false (b / 2) := by
          simp only [Nat.bit_false]
          omega
        conv_lhs => rw [hb', hsh]
        rw [Nat.lor_bit]
        simp only [Bool.or_self, Nat.bit_false, h]
        omega
      · have hb' : b = Nat.bit true (b / 2) := by
          simp only [Nat.bit_true]
          omega
        conv_lhs => rw [hb', hsh]
        rw [Nat.lor_bit]
        simp only [Bool.or_false, Nat.bit_true, h]
    rw [key, ih a (b / 2) hb2, Nat.pow_succ, ← Nat.mul_assoc]
    omega

/-- `socket::try_lock_fd`: inserts `fd` into the watcher set, reporting
whether the insertion took place (the fd was not yet present). -/
def try_lock_fd (fd_watcher : List Nat) (fd : Nat) : Bool × List Nat :=
  if fd ∈ fd_watcher then (false, fd_watcher) else (true, fd :: fd_watcher)

/-- One candidate drawn by `socket::uuid` from the atomic counter value
`counter`: `res = counter; res %= max_socket_num; ++res;
res |= worker_id << 16`, in `uint32_t` arithmetic.  The value of
`max_socket_num` lives in `config.hpp`, outside the extracted sources, so it
stays a parameter. -/
def uuid_candidate (wid max_socket_num counter : Nat) : Nat :=
  ((counter % max_socket_num + 1) ||| (wid <<< 16)) % 2 ^ 32

/-- `socket::uuid`: draw candidates from the post-incremented counter until
`try_lock_fd` succeeds.  The do/while loop carries explicit fuel; `none`
means the fuel ran out.  Returns the fd, the next counter value, and the new
watcher set. -/
def socket_uuid (wid max_socket_num : Nat) :
    Nat → Nat → List Nat → Option (Nat × Nat × List Nat)
  | 0, _, _ => none
  | fuel + 1, counter, fd_watcher =>
    match try_lock_fd fd_watcher (uuid_candidate wid max_socket_num counter) with
    | (true, w) => some (uuid_candidate wid max_socket_num counter, counter + 1, w)
    | (false, _) => socket_uuid wid max_socket_num fuel (counter + 1) fd_watcher

/-- The candidate value in plain arithmetic: worker index in the high 16
bits, `counter % max_socket_num + 1` in the low 16 bits. -/
theorem uuid_candidate_eq (wid max_socket_num c : Nat) (hw : wid < 65536)
    (hm0 : 0 < max_socket_num) (hm : max_socket_num ≤ 65535) :
    uuid_candidate wid max_socket_num c =
      wid * 65536 + (c % max_socket_num + 1) := by
  have hmod := Nat.mod_lt c hm0
  have hlow : c % max_socket_num + 1 < 2 ^ 16 := by norm_num; omega
  have h16 : (2 : Nat) ^ 16 = 65536 := by norm_num
  have h32 : (2 : Nat) ^ 32 = 4294967296 := by norm_num
  unfold uuid_candidate
  rw [lor_shiftLeft_eq_add 16 wid _ hlow, Nat.mod_eq_of_lt]
  · rw [h16]
  · rw [h16] at hlow ⊢
    rw [h32]
    omega

/-- C6 counterexample: the very first allocation (counter 0) on worker 1 with
`max_socket_num = 65535` yields fd 65537, whose low 16 bits are 1, while the
consumed counter value taken modulo `max_socket_num` is 0: the low half is
the counter modulo `max_socket_num` plus one, not the counter modulo
`max_socket_num`. -/
theorem uuid_low_bits_off_by_one :
    socket_uuid 1 65535 1 0 [] = some (65537, 1, [65537]) ∧
    65537 % 65536 = 1 ∧ (0 : Nat) % 65535 = 0 ∧ (1 : Nat) ≠ 0 := by
  refine ⟨?_, by norm_num, by norm_num, by norm_num⟩
  rfl

/-- C6 (amended): every fd produced by `socket::uuid` (for a 16-bit worker
index and `max_socket_num ≤ 65535`) was absent from the `fd_watcher` set and
is inserted into it as part of the allocation; its high 16 bits equal the
owning worker's index, and its low 16 bits equal the consumed counter value
modulo `max_socket_num`, plus one (hence never zero). -/
theorem uuid_alloc_spec (wid max_socket_num : Nat) (hw : wid < 65536)
    (hm0 : 0 < max_socket_num) (hm : max_socket_num ≤ 65535)
    (fuel counter : Nat) (fd_watcher : List Nat) (fd next_counter : Nat)
    (w' : List Nat)
    (h : socket_uuid wid max_socket_num fuel counter fd_watcher =
      some (fd, next_counter, w')) :
    fd ∉ fd_watcher ∧ w' = fd :: fd_watcher ∧
    fd / 65536 = wid ∧ fd % 65536 ≠ 0 ∧
    ∃ c, fd % 65536 = c % max_socket_num + 1 := by
  induction fuel generalizing counter with
  | zero => cases h
  | succ fuel ih =>
    rw [socket_uuid] at h
    by_cases hmem : uuid_candidate wid max_socket_num counter ∈ fd_watcher
    · simp only [try_lock_fd, if_pos hmem] at h
      exact ih (counter + 1) h
    · simp only [try_lock_fd, if_neg hmem, Option.some.injEq, Prod.mk.injEq] at h
      obtain ⟨h1, _, h3⟩ := h
      subst h1
      have hcand := uuid_candidate_eq wid max_socket_num counter hw hm0 hm
      have hmod := Nat.mod_lt counter hm0
      refine ⟨hmem, h3.symm, ?_, ?_, counter, ?_⟩ <;>
        rw [hcand] <;> omega

theorem uuid_alloc_spec_witness :
    (1 : Nat) < 65536 ∧ (0 : Nat) < 65535 ∧ (65535 : Nat) ≤ 65535 ∧
    socket_uuid 1 65535 1 0 [] = some (65537, 1, [65537]) ∧
    (65537 ∉ ([] : List Nat) ∧ [65537] = 65537 :: ([] : List Nat) ∧
      (65537 : Nat) / 65536 = 1 ∧ (65537 : Nat) % 65536 ≠ 0 ∧
      ∃ c, (65537 : Nat) % 65536 = c % 65535 + 1) :=
  ⟨by norm_num, by norm_num, by norm_num, rfl,
    uuid_alloc_spec 1 65535 (by norm_num) (by norm_num) (by norm_num)
      1 0 [] 65537 1 [65537] rfl⟩

/-! ## Dispatch error reporting (`lua_service.cpp`) -/

/-- What `lua_service::dispatch` does when the script-level dispatch of a
message fails: log the error, or reply through
`router::response(sender, ..., -sessionid, PTYPE_ERROR)`. -/
inductive dispatch_action where
  | log_error
  | respond (receiver : Nat) (sessionid : Int) (ptype : Nat)
deriving DecidableEq

/-- The error branch of `lua_service::dispatch` (the `!result.valid()` case):
messages whose session is non-negative, or whose receiver is 0 (socket
messages), only log; otherwise the session is negated and a `PTYPE_ERROR`
response is sent back to the message's sender. -/
def lua_dispatch_on_error (sender receiver : Nat) (sessionid : Int) :
    dispatch_action :=
  if sessionid ≥ 0 ∨ receiver = 0 then .log_error
  else .respond sender (-sessionid) PTYPE_ERROR

/-- C7 counterexample: a failing dispatch of a message carrying the positive
session 7 (receiver 3, sender 2) is only logged; no `PTYPE_ERROR` response
with the negated session is sent to the sender. -/
theorem dispatch_error_positive_session_logged :
    lua_dispatch_on_error 2 3 7 = .log_error ∧
    dispatch_action.log_error ≠ .respond 2 (-7) PTYPE_ERROR := by
  refine ⟨rfl, by decide⟩

/-- C7 (amended): when dispatch fails, a message carrying a negative session
and a nonzero receiver is answered with a `PTYPE_ERROR` response to the
original sender whose session is the negated (hence positive) session; a
message with a non-negative session — in particular session 0 — or with
receiver 0 is only logged and no response is sent. -/
theorem dispatch_error_session_contract (sender receiver : Nat)
    (sessionid : Int) :
    (sessionid < 0 ∧ receiver ≠ 0 →
      lua_dispatch_on_error sender receiver sessionid =
        .respond sender (-sessionid) PTYPE_ERROR ∧ 0 < -sessionid) ∧
    (sessionid ≥ 0 ∨ receiver = 0 →
      lua_dispatch_on_error sender receiver sessionid = .log_error) := by
  constructor
  · rintro ⟨hs, hr⟩
    constructor
    · simp [lua_dispatch_on_error, hr, not_le.mpr hs]
    · omega
  · intro h
    simp [lua_dispatch_on_error, h]

theorem dispatch_error_session_contract_witness :
    ((-7 : Int) < 0 ∧ (3 : Nat) ≠ 0) ∧
    (lua_dispatch_on_error 2 3 (-7) = .respond 2 (-(-7)) PTYPE_ERROR ∧
      (0 : Int) < -(-7)) ∧
    ((0 : Int) ≥ 0 ∨ (3 : Nat) = 0) ∧
    lua_dispatch_on_error 2 3 0 = .log_error :=
  ⟨⟨by norm_num, by decide⟩,
    (dispatch_error_session_contract 2 3 (-7)).1 ⟨by norm_num, by decide⟩,
    Or.inl le_rfl,
    (dispatch_error_session_contract 2 3 0).2 (Or.inl le_rfl)⟩
